import Mathlib

/-!
# Verification of the data-gone-60 ETL pipeline core

Shallow embedding of the three Lambda handlers of the repository:

* `src/sendToExternalBatch.ts` — the Batch Dispatcher (`postBatch` and the
  SQS-triggered `handler`);
* the Query Lifecycle Orchestrator (the Athena query handler: submit, poll
  loop, fetch, per-row SQS publish);
* `src/ingestData.ts` — the ingestion handler (Partition Key Deriver and
  newline-delimited object body construction).

External collaborators (`fetch`, `JSON.parse`, `new Date`, the SQS client)
are modelled as explicit functional parameters; the control flow, string
construction and data-shaping logic are translated line by line from the
TypeScript source.
-/

namespace DataGone60

/-! ## Batch Dispatcher: `src/sendToExternalBatch.ts` -/

/-- Outcome of one `fetch` POST attempt as seen by `postBatch`: either the
transport throws (`err`) or a response arrives with a status code and a
body text. -/
inductive FetchOutcome where
  | err (msg : String)
  | resp (status : Nat) (body : String)
deriving DecidableEq

/-- `const MAX_RETRIES = 3;` (sendToExternalBatch.ts line 8). -/
def MAX_RETRIES : Nat := 3

/-- `response.ok`: status in the inclusive range 200–299. -/
def respOk (status : Nat) : Bool := 200 ≤ status && status < 300

/-- How one attempt fails, per lines 28–37 of sendToExternalBatch.ts: a
transport error is rethrown as-is; a non-ok response raises
`HTTP <status>: <bodyText>`. `none` means the attempt succeeded. -/
def attemptError : FetchOutcome → Option String
  | .err m => some m
  | .resp s b => if respOk s then none else some ("HTTP " ++ toString s ++ ": " ++ b)

/-- Observable result of `postBatch`: how many POST attempts were made, the
backoff waits performed (in ms, in order), and the propagated error if the
call threw (`none` = returned normally). -/
structure PostResult where
  attempts : Nat
  waitsMs : List Nat
  errorMsg : Option String
deriving DecidableEq

/-- The `while (attempt < MAX_RETRIES)` loop of `postBatch`
(sendToExternalBatch.ts lines 14–66).  `f n` is the outcome of the fetch on
the (n+1)-th attempt.  On success the function returns; on failure it
increments `attempt`, and either waits `attempt * 1000` ms and retries, or
(when `attempt` reached `MAX_RETRIES`) rethrows the last error. -/
def postBatchGo (f : Nat → FetchOutcome) (attempt : Nat) (waits : List Nat) :
    PostResult :=
  if _h : attempt < MAX_RETRIES then
    match attemptError (f attempt) with
    | none => ⟨attempt + 1, waits, none⟩
    | some e =>
      if attempt + 1 < MAX_RETRIES then
        postBatchGo f (attempt + 1) (waits ++ [(attempt + 1) * 1000])
      else ⟨attempt + 1, waits, some e⟩
  else ⟨attempt, waits, none⟩
termination_by MAX_RETRIES - attempt
decreasing_by simp [MAX_RETRIES] at *; omega

/-- `postBatch(endpointUrl, messages)` with `attempt = 0`. -/
def postBatch (f : Nat → FetchOutcome) : PostResult := postBatchGo f 0 []

/-- Observable result of the dispatcher `handler` (sendToExternalBatch.ts
lines 73–118): the decoded message array used as the POST body, the number
of POST attempts, the waits, and the propagated error if any. -/
structure DispatchResult (α : Type) where
  posted : List α
  attempts : Nat
  waitsMs : List Nat
  errorMsg : Option String

/-- The dispatcher `handler`: decode each SQS record body with `JSON.parse`
(modelled by `parse`; `none` = the parse threw and the message is dropped),
filter out the failures, and if any messages remain POST the whole decoded
array via `postBatch`; with zero valid messages it returns without any
network call (lines 84–104). -/
def dispatcherHandler {α : Type} (parse : String → Option α)
    (bodies : List String) (f : Nat → FetchOutcome) : DispatchResult α :=
  let messages := (bodies.map parse).filterMap id
  if messages.length = 0 then ⟨[], 0, [], none⟩
  else
    let p := postBatch f
    ⟨messages, p.attempts, p.waitsMs, p.errorMsg⟩

/-! ## Query Lifecycle Orchestrator (Athena query handler) -/

/-- One `GetQueryExecution` response, projected to the two fields the
handler reads: `QueryExecution?.Status?.State` and
`QueryExecution?.Status?.StateChangeReason` (both may be `undefined`). -/
structure PollResp where
  state : Option String
  stateReason : Option String

/-- JS template-literal rendering of a possibly-undefined string:
`` `${x}` `` prints `undefined` when `x` is `undefined`. -/
def jsStr : Option String → String
  | some s => s
  | none => "undefined"

/-- Loop condition of the poll loop: `status === "RUNNING" || status === "QUEUED"`. -/
def isActive (st : Option String) : Bool :=
  st = some "RUNNING" || st = some "QUEUED"

/-- Failure check inside the loop: `status === "FAILED" || status === "CANCELLED"`. -/
def isTermFail (st : Option String) : Bool :=
  st = some "FAILED" || st = some "CANCELLED"

/-- Observable outcome of the poll loop.  `timeout` means the loop did not
finish within the given fuel (the real loop has no bound and would still be
running); `failed` carries the thrown error message and the number of polls
made; `done` carries the number of polls, the final status string, and the
total milliseconds slept (`setTimeout(..., 2000)` runs once per completed
loop iteration, including the final one). -/
inductive PollOutcome where
  | timeout
  | failed (errMsg : String) (polls : Nat)
  | done (polls : Nat) (finalStatus : Option String) (sleptMs : Nat)
deriving DecidableEq

/-- The poll loop (orchestrator handler lines 68–82): starting from
`status = "RUNNING"`, while the status is RUNNING/QUEUED poll again; a
FAILED/CANCELLED poll throws `Athena query failed: <StateChangeReason>`
before the sleep; any other polled status falls through the loop condition
after the 2000 ms sleep.  `poll i` is the (i+1)-th `GetQueryExecution`
response; `fuel` bounds the number of iterations we unfold. -/
def pollLoopGo (poll : Nat → PollResp) : Nat → Nat → Nat → PollOutcome
  | 0, _, _ => .timeout
  | fuel + 1, i, slept =>
    let r := poll i
    if isTermFail r.state then
      .failed ("Athena query failed: " ++ jsStr r.stateReason) (i + 1)
    else if isActive r.state then
      pollLoopGo poll fuel (i + 1) (slept + 2000)
    else
      .done (i + 1) r.state (slept + 2000)

/-- A result row: `row.Data` with each cell's optional `VarCharValue`. -/
abbrev Row : Type := List (Option String)

/-- The record built from one data row (orchestrator handler lines
109–115): a strictly positional 5-column projection; a missing cell yields
an `undefined` field. -/
structure AthenaRecord where
  sensorid : Option String
  temperatureC : Option String
  rawhumidity : Option String
  timestamp : Option String
  objectkey : Option String
deriving DecidableEq

/-- `cols[i]?.VarCharValue`: `none` when the row is shorter than `i + 1`
or the cell has no `VarCharValue`. -/
def getCol (cols : Row) (i : Nat) : Option String :=
  (List.get? cols i).bind id

/-- Row-to-record mapping, positional columns 0–4. -/
def mkRecord (row : Row) : AthenaRecord :=
  ⟨getCol row 0, getCol row 1, getCol row 2, getCol row 3, getCol row 4⟩

/-- The per-row SQS publishing loop (orchestrator handler lines 107–120):
each data row becomes one `SendMessage` call.  `enqueueErr i` is the error
thrown by the (i+1)-th send (`none` = success).  A thrown send error
escapes the `for` loop: rows after it are never attempted.  Returns the
records successfully sent (in order) and the escaping error, if any. -/
def sendRows (enqueueErr : Nat → Option String) : List Row → Nat →
    List AthenaRecord × Option String
  | [], _ => ([], none)
  | row :: rest, i =>
    match enqueueErr i with
    | some e => ([], some e)
    | none =>
      let r := sendRows enqueueErr rest (i + 1)
      (mkRecord row :: r.1, r.2)

/-- Observable result of one orchestrator invocation: the HTTP status code
of the returned payload, how many `GetQueryResults` (fetch) calls were
made, the records enqueued to SQS in order, the `processedRows` count
reported on success, and the error message reported on failure. -/
structure OrchResult where
  statusCode : Nat
  fetchCalls : Nat
  sent : List AthenaRecord
  processedRows : Option Nat
  errorMsg : Option String
deriving DecidableEq

/-- The orchestrator `handler` (part of the file after query submission):
run the poll loop; on a FAILED/CANCELLED throw the catch block returns a
500 payload with the error message and no fetch happens; otherwise fetch
once, take `ResultSet?.Rows || []`, drop the header row with `slice(1)`,
send each remaining row to SQS, and return 200 with
`processedRows = dataRows.length`; a send error is caught the same way and
becomes a 500. `resultSet` is `ResultSet?.Rows` (`none` = field absent). -/
def runOrchestrator (poll : Nat → PollResp) (fuel : Nat)
    (resultSet : Option (List Row)) (enqueueErr : Nat → Option String) :
    Option OrchResult :=
  match pollLoopGo poll fuel 0 0 with
  | .timeout => none
  | .failed msg _ => some ⟨500, 0, [], none, some msg⟩
  | .done _ _ _ =>
    let rows := resultSet.getD []
    let dataRows := rows.drop 1
    match sendRows enqueueErr dataRows 0 with
    | (sent, some e) => some ⟨500, 1, sent, none, some e⟩
    | (sent, none) => some ⟨200, 1, sent, some dataRows.length, none⟩

/-! ## Ingestion: `src/ingestData.ts` -/

/-- What the handler reads off a JS `Date`: `getUTCFullYear()`,
`getUTCMonth()` (0-based) and `getUTCDate()`.  A `String → Option JsDate`
parameter models `new Date(string)`; `none` models an Invalid Date (every
getter returns `NaN`). -/
structure JsDate where
  utcFullYear : Nat
  utcMonth0 : Nat
  utcDate : Nat
deriving DecidableEq

/-- `String(x).padStart(2, "0")`. -/
def padStart2 (s : String) : String :=
  if s.length = 0 then "00"
  else if s.length = 1 then "0" ++ s
  else s

/-- JS truthiness of `records[0]?.timestamp` when the field is a string:
`undefined` and the empty string are falsy, any other string is truthy. -/
def tsTruthy : Option String → Bool
  | none => false
  | some s => s ≠ ""

/-- Partition derivation (ingestData.ts lines 33–38): take the first
record's `timestamp` (if the batch is empty or the field is absent this is
`undefined`); a truthy string goes through `new Date(tsString)`, otherwise
`new Date()` (current time, `now`).  The three components are
`getUTCFullYear().toString()`, `String(getUTCMonth() + 1).padStart(2,"0")`
and `String(getUTCDate()).padStart(2,"0")`; on an Invalid Date each getter
is `NaN` and stringifies to `"NaN"`. -/
def deriveYMD (jsDate : String → Option JsDate) (now : JsDate)
    (tsString : Option String) : String × String × String :=
  let ts : Option JsDate :=
    if tsTruthy tsString then jsDate (tsString.getD "") else some now
  match ts with
  | some d =>
    (toString d.utcFullYear,
     padStart2 (toString (d.utcMonth0 + 1)),
     padStart2 (toString d.utcDate))
  | none => ("NaN", "NaN", "NaN")

/-- `records[0]?.timestamp` for a batch whose records expose an optional
string `timestamp` field (given by `tsOf`). -/
def firstTimestamp {ρ : Type} (tsOf : ρ → Option String) (records : List ρ) :
    Option String :=
  (records.head?).bind tsOf

/-- The S3 object key (ingestData.ts line 42):
`raw/year=<y>/month=<m>/day=<d>/<batchId>.json`. -/
def mkObjectKey (y m d batchId : String) : String :=
  "raw/year=" ++ y ++ "/month=" ++ m ++ "/day=" ++ d ++ "/" ++ batchId ++ ".json"

/-- A scalar JSON value of a sensor record field (SensorRecords are flat
objects of strings and numbers; numbers are modelled as integers, their
decimal rendering is immaterial to the claims). -/
inductive JVal where
  | str (s : String)
  | num (n : Int)
  | bool (b : Bool)
  | null
deriving DecidableEq

/-- A parsed sensor record: a flat JSON object, fields in insertion order. -/
abbrev Record : Type := List (String × JVal)

/-- JS object spread-with-override `{ ...r, objectKey: v }`: if the key is
already present its value is replaced in place, otherwise the new field is
appended last. -/
def setField : Record → String → JVal → Record
  | [], k, v => [(k, v)]
  | (k', v') :: rest, k, v =>
    if k' = k then (k, v) :: rest else (k', v') :: setField rest k v

/-- First-match field lookup in a record. -/
def getField : Record → String → Option JVal
  | [], _ => none
  | (k', v') :: rest, k => if k' = k then some v' else getField rest k

/-- `JSON.stringify` string escaping for one character (the named escapes;
remaining control characters are rendered by `JSON.stringify` as `\\u00xx`
sequences, which likewise contain no newline and do not affect the claims
proved here). -/
def escChar (c : Char) : String :=
  if c = '"' then "\\\""
  else if c = '\\' then "\\\\"
  else if c = '\n' then "\\n"
  else if c = '\r' then "\\r"
  else if c = '\t' then "\\t"
  else String.mk [c]

/-- Escape every character of a string (as a character list). -/
def escStrGo : List Char → String
  | [] => ""
  | c :: cs => escChar c ++ escStrGo cs

/-- `JSON.stringify` body of a string literal. -/
def escStr (s : String) : String := escStrGo s.data

/-- Decimal digits of a natural number, most significant first. -/
def natToChars (n : Nat) : List Char :=
  if _h : n < 10 then [Nat.digitChar n]
  else natToChars (n / 10) ++ [Nat.digitChar (n % 10)]
termination_by n
decreasing_by exact Nat.div_lt_self (by omega) (by omega)

/-- Decimal rendering of an integer. -/
def intToStr (n : Int) : String :=
  if n < 0 then "-" ++ String.mk (natToChars n.natAbs)
  else String.mk (natToChars n.natAbs)

/-- `JSON.stringify` of one scalar value. -/
def encodeVal : JVal → String
  | .str s => "\"" ++ escStr s ++ "\""
  | .num n => intToStr n
  | .bool b => if b then "true" else "false"
  | .null => "null"

/-- `JSON.stringify` of the fields of a flat object, comma-separated. -/
def encodeFields : Record → String
  | [] => ""
  | [(k, v)] => "\"" ++ escStr k ++ "\":" ++ encodeVal v
  | (k, v) :: f :: rest =>
    "\"" ++ escStr k ++ "\":" ++ encodeVal v ++ "," ++ encodeFields (f :: rest)

/-- `JSON.stringify` of a flat object. -/
def encodeRecord (r : Record) : String := "\x7b" ++ encodeFields r ++ "\x7d"

/-- `JSON.stringify({ ...r, objectKey })` (ingestData.ts line 44). -/
def injectObjectKey (r : Record) (key : String) : Record :=
  setField r "objectKey" (.str key)

/-- `String.intercalate` spelled out recursively (`Array.join("\n")`). -/
def joinWith (sep : String) : List String → String
  | [] => ""
  | [s] => s
  | s :: t :: rest => s ++ sep ++ joinWith sep (t :: rest)

/-- The S3 object body (ingestData.ts lines 43–45): each record with the
object key injected, serialized, joined by newlines. -/
def ingestFileBody (records : List Record) (objectKey : String) : String :=
  joinWith "\n" (records.map fun r => encodeRecord (injectObjectKey r objectKey))

/-! ## Supporting lemmas: Batch Dispatcher -/

/-- Full case analysis of `postBatch`: with `MAX_RETRIES = 3` the loop is a
three-way cascade on the outcomes of attempts 1, 2 and 3. -/
theorem postBatch_eval (f : Nat → FetchOutcome) :
    postBatch f =
      match attemptError (f 0) with
      | none => ⟨1, [], none⟩
      | some _ =>
        match attemptError (f 1) with
        | none => ⟨2, [1000], none⟩
        | some _ =>
          match attemptError (f 2) with
          | none => ⟨3, [1000, 2000], none⟩
          | some e2 => ⟨3, [1000, 2000], some e2⟩ := by
  rcases h0 : attemptError (f 0) with _ | e0 <;>
    rcases h1 : attemptError (f 1) with _ | e1 <;>
      rcases h2 : attemptError (f 2) with _ | e2 <;>
        simp [postBatch, postBatchGo, MAX_RETRIES, h0, h1, h2]

/-! ## C3 and C4: the Batch Dispatcher claims -/

/-- C3: for every non-empty batch the dispatcher makes at most 3 total POST
attempts; a successful first/second/third attempt ends the call (waiting
1000 ms after a failed attempt 1 and 2000 ms after a failed attempt 2); if
all three attempts fail, the last error is propagated with no further
retries; and an attempt fails exactly when the transport errors or the
response status is non-2xx, a non-2xx response capturing the body text in
the error `HTTP <status>: <body>`. -/
theorem dispatcher_retry_policy :
    (∀ f : Nat → FetchOutcome, (postBatch f).attempts ≤ 3) ∧
    (∀ f, attemptError (f 0) = none →
      postBatch f = ⟨1, [], none⟩) ∧
    (∀ f e0, attemptError (f 0) = some e0 → attemptError (f 1) = none →
      postBatch f = ⟨2, [1000], none⟩) ∧
    (∀ f e0 e1, attemptError (f 0) = some e0 → attemptError (f 1) = some e1 →
      attemptError (f 2) = none →
      postBatch f = ⟨3, [1000, 2000], none⟩) ∧
    (∀ f e0 e1 e2, attemptError (f 0) = some e0 → attemptError (f 1) = some e1 →
      attemptError (f 2) = some e2 →
      postBatch f = ⟨3, [1000, 2000], some e2⟩) ∧
    (∀ e, attemptError (.err e) = some e) ∧
    (∀ s b, respOk s = false →
      attemptError (.resp s b) = some ("HTTP " ++ toString s ++ ": " ++ b)) ∧
    (∀ s b, respOk s = true → attemptError (.resp s b) = none) := by
  refine ⟨?_, ?_, ?_, ?_, ?_, ?_, ?_, ?_⟩
  · intro f
    rw [postBatch_eval]
    rcases attemptError (f 0) with _ | e0 <;>
      rcases attemptError (f 1) with _ | e1 <;>
        rcases attemptError (f 2) with _ | e2 <;> simp
  · intro f h0; rw [postBatch_eval, h0]
  · intro f e0 h0 h1; rw [postBatch_eval, h0, h1]
  · intro f e0 e1 h0 h1 h2; rw [postBatch_eval, h0, h1, h2]
  · intro f e0 e1 e2 h0 h1 h2; rw [postBatch_eval, h0, h1, h2]
  · intro e; rfl
  · intro s b h; simp [attemptError, h]
  · intro s b h; simp [attemptError, h]

/-- Witness for C3: a sink failing on attempts 1 and 2 (transport error,
then HTTP 503) and succeeding on attempt 3 yields exactly 3 attempts, waits
of 1000 ms and 2000 ms, and a successful return. -/
theorem dispatcher_retry_policy_witness :
    postBatch (fun n =>
        if n = 0 then .err "connection reset"
        else if n = 1 then .resp 503 "unavailable"
        else .resp 200 "ok") =
      ⟨3, [1000, 2000], none⟩ :=
  dispatcher_retry_policy.2.2.2.1 _ "connection reset"
    "HTTP 503: unavailable" (by decide) (by decide) (by decide)

/-- C4: the dispatcher's outbound POST body is exactly the decoded message
bodies in order — a body whose decode fails is dropped without aborting the
batch — and when zero messages decode the handler makes no network call
(zero attempts) and completes successfully (no error). -/
theorem dispatcher_decode_filter :
    (∀ (α : Type) (parse : String → Option α) (bodies : List String)
        (f : Nat → FetchOutcome),
      (dispatcherHandler parse bodies f).posted = bodies.filterMap parse) ∧
    (∀ (α : Type) (parse : String → Option α) (bodies : List String)
        (f : Nat → FetchOutcome),
      bodies.filterMap parse = [] →
      (dispatcherHandler parse bodies f).posted = [] ∧
      (dispatcherHandler parse bodies f).attempts = 0 ∧
      (dispatcherHandler parse bodies f).errorMsg = none) := by
  have hmap : ∀ (α : Type) (parse : String → Option α) (bodies : List String),
      (bodies.map parse).filterMap id = bodies.filterMap parse := by
    intro α parse bodies
    rw [List.filterMap_map]
    rfl
  have heval : ∀ (α : Type) (parse : String → Option α) (bodies : List String)
      (f : Nat → FetchOutcome),
      dispatcherHandler parse bodies f =
        if (bodies.filterMap parse).length = 0 then ⟨[], 0, [], none⟩
        else ⟨bodies.filterMap parse, (postBatch f).attempts,
          (postBatch f).waitsMs, (postBatch f).errorMsg⟩ := by
    intro α parse bodies f
    show (if ((bodies.map parse).filterMap id).length = 0 then _ else _) = _
    rw [hmap]
  constructor
  · intro α parse bodies f
    rw [heval]
    by_cases h : (bodies.filterMap parse).length = 0
    · rw [if_pos h]; exact (List.length_eq_zero.mp h).symm
    · rw [if_neg h]
  · intro α parse bodies f h
    rw [heval]
    have h0 : (bodies.filterMap parse).length = 0 := by rw [h]; rfl
    rw [if_pos h0]
    exact ⟨rfl, rfl, rfl⟩

/-- Witness for C4: ten queued messages where message #4 is invalid JSON
yield exactly the nine decodable ones, in order, in the POST body; and a
batch in which nothing decodes makes zero attempts and raises no error. -/
theorem dispatcher_decode_filter_witness :
    (dispatcherHandler (fun s => if s = "oops" then none else some s)
        ["0", "1", "2", "oops", "4", "5", "6", "7", "8", "9"]
        (fun _ => .resp 200 "ok")).posted =
      ["0", "1", "2", "4", "5", "6", "7", "8", "9"] ∧
    (dispatcherHandler (fun s => if s = "oops" then none else some s)
        ["oops", "oops"] (fun _ => .err "down")).attempts = 0 := by
  constructor
  · rw [dispatcher_decode_filter.1]; decide
  · exact (dispatcher_decode_filter.2 String _ _ _ (by decide)).2.1

/-! ## Supporting lemmas: the poll loop -/

/-- A RUNNING/QUEUED status is not a FAILED/CANCELLED status. -/
theorem isActive_not_termFail {st : Option String} (h : isActive st = true) :
    isTermFail st = false := by
  rcases st with _ | s
  · rfl
  · simp only [isActive, Bool.or_eq_true, decide_eq_true_eq,
      Option.some.injEq] at h
    rcases h with h | h <;> subst h <;> decide

/-- Skipping `k` RUNNING/QUEUED polls consumes `k` fuel, advances the poll
index by `k` and accumulates one 2000 ms sleep per poll. -/
theorem pollLoopGo_skip_active (poll : Nat → PollResp) :
    ∀ (k fuel i slept : Nat),
      (∀ j, j < k → isActive (poll (i + j)).state = true) →
      k < fuel →
      pollLoopGo poll fuel i slept =
        pollLoopGo poll (fuel - k) (i + k) (slept + 2000 * k) := by
  intro k
  induction k with
  | zero => intro fuel i slept _ _; simp
  | succ k ih =>
    intro fuel i slept hact hfuel
    rcases fuel with _ | fuel
    · omega
    have h0 : isActive (poll i).state = true := by
      have := hact 0 (by omega); simpa using this
    have hrec : pollLoopGo poll (fuel + 1) i slept =
        pollLoopGo poll fuel (i + 1) (slept + 2000) := by
      simp only [pollLoopGo, isActive_not_termFail h0, h0]
      simp
    rw [hrec, ih fuel (i + 1) (slept + 2000)
      (fun j hj => by
        have := hact (j + 1) (by omega)
        simpa [Nat.add_assoc, Nat.add_comm 1 j] using this)
      (by omega)]
    congr 1 <;> omega

/-- If the first `k` polls are RUNNING/QUEUED and poll `k + 1` reports
FAILED or CANCELLED, the loop throws
`Athena query failed: <StateChangeReason>` after exactly `k + 1` polls. -/
theorem pollLoopGo_failed (poll : Nat → PollResp) (k fuel : Nat)
    (hact : ∀ j, j < k → isActive (poll j).state = true)
    (hterm : isTermFail (poll k).state = true)
    (hfuel : k < fuel) :
    pollLoopGo poll fuel 0 0 =
      .failed ("Athena query failed: " ++ jsStr (poll k).stateReason) (k + 1) := by
  rw [pollLoopGo_skip_active poll k fuel 0 0 (by simpa using hact) hfuel]
  rcases hf : fuel - k with _ | m
  · omega
  simp only [pollLoopGo, Nat.zero_add, hterm]
  simp

/-- If the first `k` polls are RUNNING/QUEUED and poll `k + 1` reports a
status that is neither RUNNING/QUEUED nor FAILED/CANCELLED, the loop exits
normally after exactly `k + 1` polls and `2000 (k + 1)` ms of sleeping. -/
theorem pollLoopGo_done (poll : Nat → PollResp) (k fuel : Nat)
    (hact : ∀ j, j < k → isActive (poll j).state = true)
    (hterm : isTermFail (poll k).state = false)
    (hina : isActive (poll k).state = false)
    (hfuel : k < fuel) :
    pollLoopGo poll fuel 0 0 =
      .done (k + 1) (poll k).state (2000 * (k + 1)) := by
  rw [pollLoopGo_skip_active poll k fuel 0 0 (by simpa using hact) hfuel]
  rcases hf : fuel - k with _ | m
  · omega
  simp only [pollLoopGo, Nat.zero_add, hterm, hina]
  simp
  ring

/-- A sequence of polls that never leaves RUNNING/QUEUED never exits the
loop, whatever fuel it is given. -/
theorem pollLoopGo_forever (poll : Nat → PollResp)
    (h : ∀ i, isActive (poll i).state = true) :
    ∀ fuel i slept, pollLoopGo poll fuel i slept = .timeout := by
  intro fuel
  induction fuel with
  | zero => intro i slept; rfl
  | succ fuel ih =>
    intro i slept
    simp only [pollLoopGo, isActive_not_termFail (h i), h i]
    simp only [Bool.false_eq_true, if_false, if_true]
    exact ih (i + 1) (slept + 2000)

/-- As soon as some poll reports a non-RUNNING/non-QUEUED status, the loop
terminates (exits or throws) given enough fuel. -/
theorem pollLoopGo_ne_timeout (poll : Nat → PollResp) :
    ∀ (k m i slept : Nat), isActive (poll (i + k)).state = false →
      pollLoopGo poll (k + 1 + m) i slept ≠ .timeout := by
  intro k
  induction k with
  | zero =>
    intro m i slept hina
    simp only [Nat.add_zero] at hina
    have hrw : 0 + 1 + m = m + 1 := by omega
    rw [hrw]
    simp only [pollLoopGo]
    rcases htf : isTermFail (poll i).state with _ | _
    · simp [htf, hina]
    · simp [htf]
  | succ k ih =>
    intro m i slept hina
    have hrw : k + 1 + 1 + m = k + 1 + m + 1 := by omega
    rw [hrw]
    simp only [pollLoopGo]
    rcases htf : isTermFail (poll i).state with _ | _
    · rcases hac : isActive (poll i).state with _ | _
      · simp [htf, hac]
      · simp only [htf, hac]
        simp only [Bool.false_eq_true, if_false, if_true]
        have : i + 1 + k = i + (k + 1) := by omega
        exact ih m (i + 1) (slept + 2000) (by rw [this]; exact hina)
    · simp [htf]

/-- When every SQS send succeeds, each data row is enqueued, in order. -/
theorem sendRows_all_ok (rows : List Row) :
    ∀ i, sendRows (fun _ => none) rows i = (rows.map mkRecord, none) := by
  induction rows with
  | nil => intro i; rfl
  | cons row rest ih =>
    intro i
    simp only [sendRows, ih (i + 1), List.map_cons]

/-- When the first send failure occurs at row `k + 1` (0-based `k`), the
rows before it are enqueued and the loop aborts with that error. -/
theorem sendRows_first_fail (enqueueErr : Nat → Option String) (e : String) :
    ∀ (rows : List Row) (k i : Nat),
      (∀ j, j < k → enqueueErr (i + j) = none) →
      enqueueErr (i + k) = some e →
      k < rows.length →
      sendRows enqueueErr rows i = ((rows.take k).map mkRecord, some e) := by
  intro rows
  induction rows with
  | nil => intro k i _ _ hk; simp at hk
  | cons row rest ih =>
    intro k i hok hfail hk
    rcases k with _ | k
    · simp only [Nat.add_zero] at hfail
      simp [sendRows, hfail]
    · have h0 : enqueueErr i = none := by
        have := hok 0 (by omega); simpa using this
      simp only [sendRows, h0]
      rw [ih k (i + 1)
        (fun j hj => by
          have := hok (j + 1) (by omega)
          simpa [Nat.add_assoc, Nat.add_comm 1 j] using this)
        (by have : i + 1 + k = i + (k + 1) := by omega
            rw [this]; exact hfail)
        (by simpa using Nat.lt_of_succ_lt_succ hk)]
      simp

/-! ## C1, C2, C10, C6, C5: the orchestrator claims -/

/-- C1: whenever the poll loop exits normally (a sequence ending in
SUCCEEDED), the first returned row is discarded unconditionally: with a
result set of one header row `h` and two data rows, exactly the two data
records are produced and enqueued — the output does not depend on `h` in
any way — and with an empty result set zero data rows are produced and
nothing is enqueued. -/
theorem orchestrator_discards_header :
    ∀ (poll : Nat → PollResp) (fuel n slept : Nat) (st : Option String),
      pollLoopGo poll fuel 0 0 = .done n st slept →
      (∀ h d1 d2 : Row,
        runOrchestrator poll fuel (some [h, d1, d2]) (fun _ => none) =
          some ⟨200, 1, [mkRecord d1, mkRecord d2], some 2, none⟩) ∧
      runOrchestrator poll fuel (some []) (fun _ => none) =
        some ⟨200, 1, [], some 0, none⟩ := by
  intro poll fuel n slept st hdone
  constructor
  · intro h d1 d2
    simp [runOrchestrator, hdone, sendRows_all_ok]
  · simp [runOrchestrator, hdone, sendRows_all_ok]

/-- Witness for C1: a RUNNING poll followed by a SUCCEEDED poll, a header
row and two data rows produce exactly the two data records. -/
theorem orchestrator_discards_header_witness :
    runOrchestrator
        (fun i => if i = 0 then ⟨some "RUNNING", none⟩
                  else ⟨some "SUCCEEDED", none⟩) 3
        (some [[some "sensorid"], [some "s1"], [some "s2"]])
        (fun _ => none) =
      some ⟨200, 1, [mkRecord [some "s1"], mkRecord [some "s2"]], some 2, none⟩ :=
  (orchestrator_discards_header _ 3 2 4000 (some "SUCCEEDED") (by decide)).1
    [some "sensorid"] [some "s1"] [some "s2"]

/-- C2: if the polls stay RUNNING/QUEUED until poll `k + 1` reports FAILED
or CANCELLED, the orchestrator stops after that poll (exactly `k + 1`
polls), raises `Athena query failed: <stateReason>` — surfaced as the 500
error payload — performs zero fetch calls, enqueues nothing, and does not
retry within the invocation (the outcome is final whatever the result set
or queue behavior would have been). -/
theorem orchestrator_terminal_failure :
    ∀ (poll : Nat → PollResp) (fuel k : Nat),
      (∀ j, j < k → isActive (poll j).state = true) →
      isTermFail (poll k).state = true →
      k < fuel →
      pollLoopGo poll fuel 0 0 =
        .failed ("Athena query failed: " ++ jsStr (poll k).stateReason)
          (k + 1) ∧
      ∀ (resultSet : Option (List Row)) (enqueueErr : Nat → Option String),
        runOrchestrator poll fuel resultSet enqueueErr =
          some ⟨500, 0, [], none,
            some ("Athena query failed: " ++ jsStr (poll k).stateReason)⟩ := by
  intro poll fuel k hact hterm hfuel
  have hfail := pollLoopGo_failed poll k fuel hact hterm hfuel
  refine ⟨hfail, ?_⟩
  intro resultSet enqueueErr
  simp [runOrchestrator, hfail]

/-- Witness for C2: a FAILED terminal state on the second poll raises the
supplied state-change reason, with zero fetch calls. -/
theorem orchestrator_terminal_failure_witness :
    runOrchestrator
        (fun i => if i = 0 then ⟨some "RUNNING", none⟩
                  else ⟨some "FAILED", some "SYNTAX_ERROR"⟩) 5
        (some [[some "x"]]) (fun _ => none) =
      some ⟨500, 0, [], none,
        some "Athena query failed: SYNTAX_ERROR"⟩ :=
  (orchestrator_terminal_failure
      (fun i => if i = 0 then ⟨some "RUNNING", none⟩
                else ⟨some "FAILED", some "SYNTAX_ERROR"⟩) 5 1
      (by intro j hj; interval_cases j; decide) (by decide) (by decide)).2
    (some [[some "x"]]) (fun _ => none)

/-- C10: a polled state that is none of RUNNING, QUEUED, FAILED, CANCELLED
— such as SUBMITTED or an absent state — exits the poll loop at that poll
and the orchestrator proceeds to fetch results exactly as on success: one
fetch call and a 200 result built from the fetched rows. -/
theorem orchestrator_unknown_state_fetches :
    ∀ (poll : Nat → PollResp) (fuel k : Nat) (resultSet : Option (List Row)),
      (∀ j, j < k → isActive (poll j).state = true) →
      isActive (poll k).state = false →
      isTermFail (poll k).state = false →
      k < fuel →
      pollLoopGo poll fuel 0 0 =
        .done (k + 1) (poll k).state (2000 * (k + 1)) ∧
      runOrchestrator poll fuel resultSet (fun _ => none) =
        some ⟨200, 1, ((resultSet.getD []).drop 1).map mkRecord,
          some ((resultSet.getD []).drop 1).length, none⟩ := by
  intro poll fuel k resultSet hact hina hterm hfuel
  have hdone := pollLoopGo_done poll k fuel hact hterm hina hfuel
  refine ⟨hdone, ?_⟩
  simp [runOrchestrator, hdone, sendRows_all_ok]

/-- Witness for C10: a first poll reporting SUBMITTED ends the polling and
the fetched result set (header plus one data row) is processed as a
success. -/
theorem orchestrator_unknown_state_fetches_witness :
    runOrchestrator (fun _ => ⟨some "SUBMITTED", none⟩) 1
        (some [[some "hdr"], [some "v1", some "v2"]]) (fun _ => none) =
      some ⟨200, 1, [mkRecord [some "v1", some "v2"]], some 1, none⟩ :=
  (orchestrator_unknown_state_fetches (fun _ => ⟨some "SUBMITTED", none⟩) 1 0
      (some [[some "hdr"], [some "v1", some "v2"]])
      (by intro j hj; omega) (by decide) (by decide) (by decide)).2

/-- C6: the orchestrator enforces no maximum poll count: a sequence that
stays RUNNING/QUEUED is polled forever (every finite unfolding of the loop
is still running), for every bound `N` there is a sequence — RUNNING for
the first `N` polls — that causes `N + 1 > N` polls before terminating
(sleeping the fixed 2000 ms delay after each poll), and the loop
terminates as soon as — and only when — some poll reports a state other
than RUNNING/QUEUED. -/
theorem orchestrator_unbounded_polling :
    (∀ poll : Nat → PollResp, (∀ i, isActive (poll i).state = true) →
      ∀ fuel i slept, pollLoopGo poll fuel i slept = .timeout) ∧
    (∀ N : Nat, ∃ poll : Nat → PollResp,
      pollLoopGo poll (N + 1) 0 0 =
        .done (N + 1) (some "SUCCEEDED") (2000 * (N + 1))) ∧
    (∀ (poll : Nat → PollResp) (k : Nat),
      isActive (poll k).state = false →
      ∀ m, pollLoopGo poll (k + 1 + m) 0 0 ≠ .timeout) := by
  refine ⟨pollLoopGo_forever, ?_, ?_⟩
  · intro N
    refine ⟨fun i => if i < N then ⟨some "RUNNING", none⟩
                     else ⟨some "SUCCEEDED", none⟩, ?_⟩
    have h := pollLoopGo_done
      (fun i => if i < N then ⟨some "RUNNING", none⟩
                else ⟨some "SUCCEEDED", none⟩) N (N + 1)
      (fun j hj => by simp [hj]; rfl)
      (by simp; decide)
      (by simp; decide)
      (by omega)
    simpa using h
  · intro poll k hina m
    exact pollLoopGo_ne_timeout poll k m 0 0 (by simpa using hina)

/-- Witness for C6: with a bound of three polls, the all-RUNNING sequence
is still polling, while a sequence going SUCCEEDED on poll one terminates
at once. -/
theorem orchestrator_unbounded_polling_witness :
    pollLoopGo (fun _ => ⟨some "RUNNING", none⟩) 3 0 0 = .timeout ∧
    pollLoopGo (fun _ => ⟨some "SUCCEEDED", none⟩) 1 0 0 ≠ .timeout :=
  ⟨orchestrator_unbounded_polling.1 _ (fun i => by decide) 3 0 0,
   orchestrator_unbounded_polling.2.2 _ 0 (by decide) 0⟩

/-- C5 counterexample: an enqueue failure for an individual row DOES abort
processing of the remaining rows, and no successful-vs-total count is
reported.  With two data rows and an SQS send that throws on the first row
but would succeed on the second, zero records are enqueued, the invocation
returns 500 with the send error, and `processedRows` is not reported —
whereas with no failure both rows are enqueued (so the second row's
enqueue would have succeeded). -/
theorem publisher_abort_counterexample :
    runOrchestrator (fun _ => ⟨some "SUCCEEDED", none⟩) 1
        (some [[some "hdr"], [some "r1"], [some "r2"]])
        (fun i => if i = 0 then some "SQS send failed" else none) =
      some ⟨500, 1, [], none, some "SQS send failed"⟩ ∧
    runOrchestrator (fun _ => ⟨some "SUCCEEDED", none⟩) 1
        (some [[some "hdr"], [some "r1"], [some "r2"]])
        (fun _ => none) =
      some ⟨200, 1, [mkRecord [some "r1"], mkRecord [some "r2"]],
        some 2, none⟩ := by
  constructor <;> decide

/-- C5 amended: the Result Publisher enqueues one DispatchMessage per
retained row individually (not one message for the whole batch); on full
success it reports the total data-row count as `processedRows`; but an
enqueue failure for an individual row ABORTS processing of the remaining
rows — the rows before the failure stay enqueued, the failing row's error
propagates, and the invocation reports a 500 with that error instead of a
successfully-enqueued-vs-total count. -/
theorem publisher_per_row_send :
    ∀ (poll : Nat → PollResp) (fuel n slept : Nat) (st : Option String)
      (hdr : Row) (rows : List Row),
      pollLoopGo poll fuel 0 0 = .done n st slept →
      (runOrchestrator poll fuel (some (hdr :: rows)) (fun _ => none) =
        some ⟨200, 1, rows.map mkRecord, some rows.length, none⟩) ∧
      (∀ (enqueueErr : Nat → Option String) (k : Nat) (e : String),
        (∀ j, j < k → enqueueErr j = none) →
        enqueueErr k = some e →
        k < rows.length →
        runOrchestrator poll fuel (some (hdr :: rows)) enqueueErr =
          some ⟨500, 1, (rows.take k).map mkRecord, none, some e⟩) := by
  intro poll fuel n slept st hdr rows hdone
  constructor
  · simp [runOrchestrator, hdone, sendRows_all_ok]
  · intro enqueueErr k e hok hfail hk
    have hsend := sendRows_first_fail enqueueErr e rows k 0
      (fun j hj => by simpa using hok j hj) (by simpa using hfail) hk
    simp [runOrchestrator, hdone, hsend]

/-- Witness for the amended C5: with three data rows and a send failure on
the second row, the first row's record is enqueued, the rest are not, and
the invocation reports the send error. -/
theorem publisher_per_row_send_witness :
    runOrchestrator (fun _ => ⟨some "SUCCEEDED", none⟩) 1
        (some [[some "hdr"], [some "a"], [some "b"], [some "c"]])
        (fun i => if i = 1 then some "queue unavailable" else none) =
      some ⟨500, 1, [mkRecord [some "a"]], none, some "queue unavailable"⟩ :=
  (publisher_per_row_send (fun _ => ⟨some "SUCCEEDED", none⟩) 1 1 2000
      (some "SUCCEEDED") [some "hdr"] [[some "a"], [some "b"], [some "c"]]
      (by decide)).2
    (fun i => if i = 1 then some "queue unavailable" else none) 1
    "queue unavailable"
    (by intro j hj; interval_cases j; decide) (by decide) (by decide)

/-! ## C7 and C8: the Partition Key Deriver claims -/

/-- C7: when the first record of the batch carries a (nonempty) timestamp
that `new Date` parses, the derived year/month/day are exactly that
timestamp's UTC calendar date — year as-is, month (`getUTCMonth() + 1`)
and day zero-padded to two digits — whatever the remaining records are
(`rest` is arbitrary and the result does not mention it); and on the
calendar ranges 1–31 the padding is exactly two-digit zero padding. -/
theorem partition_key_first_record :
    (∀ (jsDate : String → Option JsDate) (now d : JsDate) (s : String)
        (ρ : Type) (tsOf : ρ → Option String) (r0 : ρ) (rest : List ρ),
      tsOf r0 = some s → s ≠ "" → jsDate s = some d →
      deriveYMD jsDate now (firstTimestamp tsOf (r0 :: rest)) =
        (toString d.utcFullYear,
         padStart2 (toString (d.utcMonth0 + 1)),
         padStart2 (toString d.utcDate))) ∧
    (∀ m : Nat, 1 ≤ m → m ≤ 31 →
      padStart2 (toString m) =
        if m < 10 then "0" ++ toString m else toString m) := by
  constructor
  · intro jsDate now d s ρ tsOf r0 rest hts hs hparse
    simp only [firstTimestamp, List.head?_cons, Option.bind_eq_bind,
      Option.some_bind, hts]
    simp [deriveYMD, tsTruthy, hs, hparse]
  · intro m h1 h31
    interval_cases m <;> decide

/-- Witness for C7: a first record timestamped `2025-02-10T12:00:00Z`
(parsing to UTC 2025-02-10) yields the key components
`("2025", "02", "10")`, although the second record's timestamp falls on a
different date. -/
theorem partition_key_first_record_witness :
    deriveYMD
        (fun s => if s = "2025-02-10T12:00:00Z"
                  then some ⟨2025, 1, 10⟩ else none)
        ⟨1970, 0, 1⟩
        (firstTimestamp (fun r : Option String => r)
          [some "2025-02-10T12:00:00Z", some "2026-03-04T00:00:00Z"]) =
      ("2025", "02", "10") := by
  have h := partition_key_first_record.1
    (fun s => if s = "2025-02-10T12:00:00Z" then some ⟨2025, 1, 10⟩ else none)
    ⟨1970, 0, 1⟩ ⟨2025, 1, 10⟩ "2025-02-10T12:00:00Z"
    (Option String) (fun r => r)
    (some "2025-02-10T12:00:00Z") [some "2026-03-04T00:00:00Z"]
    rfl (by decide) (by decide)
  rw [h]; decide

/-- C8 counterexample: a present-but-unparsable timestamp does NOT fall
back to the current processing time.  `tsString` is truthy, so the code
takes `new Date(tsString)` — an Invalid Date — and every getter returns
`NaN`: the derived components are `("NaN", "NaN", "NaN")`, not the current
UTC date (here 2026-10-12, whose components the second conjunct shows are
different). -/
theorem partition_fallback_counterexample :
    deriveYMD (fun _ => none) ⟨2026, 9, 12⟩ (some "definitely-not-a-date") =
      ("NaN", "NaN", "NaN") ∧
    ("NaN", "NaN", "NaN") ≠
      (toString (2026 : Nat), padStart2 (toString (9 + 1)),
       padStart2 (toString (12 : Nat))) := by
  constructor <;> decide

/-- C8 amended: the deriver never throws; it substitutes the current
processing time exactly when the first record's timestamp is absent — the
batch is empty or the field is missing — or is the empty string (falsy);
when a nonempty timestamp string is present but unparsable, it derives the
Invalid-Date components `("NaN", "NaN", "NaN")` instead of the current
date. -/
theorem partition_fallback_behavior :
    ∀ (jsDate : String → Option JsDate) (now : JsDate),
      (∀ (ρ : Type) (tsOf : ρ → Option String),
        deriveYMD jsDate now (firstTimestamp tsOf ([] : List ρ)) =
          (toString now.utcFullYear,
           padStart2 (toString (now.utcMonth0 + 1)),
           padStart2 (toString now.utcDate))) ∧
      (∀ ts : Option String, tsTruthy ts = false →
        deriveYMD jsDate now ts =
          (toString now.utcFullYear,
           padStart2 (toString (now.utcMonth0 + 1)),
           padStart2 (toString now.utcDate))) ∧
      (∀ s : String, s ≠ "" → jsDate s = none →
        deriveYMD jsDate now (some s) = ("NaN", "NaN", "NaN")) := by
  intro jsDate now
  refine ⟨?_, ?_, ?_⟩
  · intro ρ tsOf
    simp [deriveYMD, firstTimestamp, tsTruthy]
  · intro ts hts
    simp [deriveYMD, hts]
  · intro s hs hparse
    simp [deriveYMD, tsTruthy, hs, hparse]

/-- Witness for the amended C8: an unparsable nonempty timestamp yields
the `NaN` components. -/
theorem partition_fallback_behavior_witness :
    deriveYMD (fun _ => none) ⟨2025, 1, 10⟩ (some "garbage") =
      ("NaN", "NaN", "NaN") :=
  (partition_fallback_behavior (fun _ => none) ⟨2025, 1, 10⟩).2.2
    "garbage" (by decide) rfl

/-! ## Supporting lemmas: JSON serialization -/

/-- Escaping a character never produces a literal newline. -/
theorem escChar_no_newline (c : Char) : '\n' ∉ (escChar c).data := by
  unfold escChar
  split_ifs with h1 h2 h3 h4 h5
  · decide
  · decide
  · decide
  · decide
  · decide
  · simp only [List.mem_singleton]
    exact fun h => h3 h.symm

/-- An escaped string contains no literal newline. -/
theorem escStrGo_no_newline (l : List Char) : '\n' ∉ (escStrGo l).data := by
  induction l with
  | nil => simp [escStrGo]
  | cons c cs ih =>
    simp only [escStrGo, String.data_append, List.mem_append]
    rintro (h | h)
    · exact escChar_no_newline c h
    · exact ih h

/-- Digit characters are not newlines. -/
theorem digitChar_no_newline (n : Nat) (h : n < 10) :
    Nat.digitChar n ≠ '\n' := by
  interval_cases n <;> decide

/-- The decimal rendering of a natural number contains no newline. -/
theorem natToChars_no_newline (n : Nat) : '\n' ∉ natToChars n := by
  induction n using Nat.strong_induction_on with
  | _ n ih =>
    unfold natToChars
    split_ifs with h
    · simp only [List.mem_singleton]
      exact fun hc => digitChar_no_newline n h hc.symm
    · simp only [List.mem_append, List.mem_singleton]
      rintro (hc | hc)
      · exact ih (n / 10) (Nat.div_lt_self (by omega) (by omega)) hc
      · exact digitChar_no_newline (n % 10) (Nat.mod_lt n (by omega)) hc.symm

/-- The decimal rendering of an integer contains no newline. -/
theorem intToStr_no_newline (n : Int) : '\n' ∉ (intToStr n).data := by
  unfold intToStr
  split_ifs with h
  · simp only [String.data_append, List.mem_append]
    rintro (hc | hc)
    · revert hc; decide
    · exact natToChars_no_newline n.natAbs hc
  · exact natToChars_no_newline n.natAbs

/-- A serialized scalar value contains no newline. -/
theorem encodeVal_no_newline (v : JVal) : '\n' ∉ (encodeVal v).data := by
  cases v with
  | str s =>
    intro hc
    simp only [encodeVal, String.data_append, List.mem_append, or_assoc] at hc
    rcases hc with hc | hc | hc
    · revert hc; decide
    · exact escStrGo_no_newline s.data hc
    · revert hc; decide
  | num n => exact intToStr_no_newline n
  | bool b => cases b <;> decide
  | null => decide

/-- A serialized field list contains no newline. -/
theorem encodeFields_no_newline (r : Record) :
    '\n' ∉ (encodeFields r).data := by
  induction r with
  | nil => decide
  | cons kv rest ih =>
    rcases kv with ⟨k, v⟩
    cases rest with
    | nil =>
      intro hc
      simp only [encodeFields, String.data_append, List.mem_append,
        or_assoc] at hc
      rcases hc with hc | hc | hc | hc
      · revert hc; decide
      · exact escStrGo_no_newline k.data hc
      · revert hc; decide
      · exact encodeVal_no_newline v hc
    | cons kv2 rest2 =>
      intro hc
      simp only [encodeFields, String.data_append, List.mem_append,
        or_assoc] at hc
      rcases hc with hc | hc | hc | hc | hc | hc
      · revert hc; decide
      · exact escStrGo_no_newline k.data hc
      · revert hc; decide
      · exact encodeVal_no_newline v hc
      · revert hc; decide
      · exact ih hc

/-- A serialized record contains no newline: it sits on a single line. -/
theorem encodeRecord_no_newline (r : Record) :
    '\n' ∉ (encodeRecord r).data := by
  intro hc
  simp only [encodeRecord, String.data_append, List.mem_append, or_assoc] at hc
  rcases hc with hc | hc | hc
  · revert hc; decide
  · exact encodeFields_no_newline r hc
  · revert hc; decide

/-- A serialized record starts with `{`: it is a single JSON object, not
an array. -/
theorem encodeRecord_head (r : Record) :
    (encodeRecord r).data.head? = some '{' := by
  show (("\x7b" ++ (encodeFields r ++ "\x7d")).data).head? = some '{'
  rw [String.data_append]
  rfl

/-- Injecting a field makes lookup of that field return the new value. -/
theorem getField_setField (r : Record) (k : String) (v : JVal) :
    getField (setField r k v) k = some v := by
  induction r with
  | nil => simp [setField, getField]
  | cons kv rest ih =>
    rcases kv with ⟨k', v'⟩
    by_cases h : k' = k
    · simp [setField, getField, h]
    · simp [setField, getField, h, ih]

/-! ## C9: the ingestion object-body claim -/

/-- C9: the S3 object body is the records serialized one JSON object per
line joined by newlines — each serialized record starts with `{` (a single
object, never a multi-record array) and contains no literal newline, so
each occupies exactly one line — and every record in the body carries the
injected `objectKey` field equal to the object's own storage key (one and
the same key, hence one and the same year/month/day partition, for every
record of the object). -/
theorem ingest_body_ndjson :
    ∀ (records : List Record) (y m d batchId : String),
      ingestFileBody records (mkObjectKey y m d batchId) =
        joinWith "\n" (records.map fun r =>
          encodeRecord (injectObjectKey r (mkObjectKey y m d batchId))) ∧
      (∀ r : Record,
        '\n' ∉
          (encodeRecord (injectObjectKey r (mkObjectKey y m d batchId))).data) ∧
      (∀ r : Record,
        (encodeRecord
          (injectObjectKey r (mkObjectKey y m d batchId))).data.head? =
            some '{') ∧
      (∀ r : Record,
        getField (injectObjectKey r (mkObjectKey y m d batchId)) "objectKey" =
          some (.str (mkObjectKey y m d batchId))) := by
  intro records y m d batchId
  refine ⟨rfl, ?_, ?_, ?_⟩
  · intro r; exact encodeRecord_no_newline _
  · intro r; exact encodeRecord_head _
  · intro r; exact getField_setField r "objectKey" _

/-- Witness for C9: a concrete two-record batch keyed under
`raw/year=2025/month=02/day=10/b1.json` — with the second record's string
value containing a raw newline — still serializes with no literal newline
inside either line, each line opening a JSON object carrying the storage
key as its `objectKey`. -/
theorem ingest_body_ndjson_witness :
    getField
        (injectObjectKey [("sensorId", JVal.str "s-1"),
            ("rawTemperature", JVal.num 72)]
          (mkObjectKey "2025" "02" "10" "b1")) "objectKey" =
      some (.str (mkObjectKey "2025" "02" "10" "b1")) ∧
    '\n' ∉
      (encodeRecord (injectObjectKey [("note", JVal.str "line1\nline2")]
        (mkObjectKey "2025" "02" "10" "b1"))).data ∧
    (encodeRecord (injectObjectKey [("note", JVal.str "line1\nline2")]
        (mkObjectKey "2025" "02" "10" "b1"))).data.head? = some '{' :=
  ⟨(ingest_body_ndjson
      [[("sensorId", JVal.str "s-1"), ("rawTemperature", JVal.num 72)],
       [("note", JVal.str "line1\nline2")]] "2025" "02" "10" "b1").2.2.2 _,
   (ingest_body_ndjson
      [[("sensorId", JVal.str "s-1"), ("rawTemperature", JVal.num 72)],
       [("note", JVal.str "line1\nline2")]] "2025" "02" "10" "b1").2.1 _,
   (ingest_body_ndjson
      [[("sensorId", JVal.str "s-1"), ("rawTemperature", JVal.num 72)],
       [("note", JVal.str "line1\nline2")]] "2025" "02" "10" "b1").2.2.1 _⟩

end DataGone60
